import Mathlib

set_option maxHeartbeats 1000000

/-!
Shallow embedding of the trivia-game session engine of this repository.

The repository holds two variants of the same Telegram trivia bot:
  * `src/Pytriviagame/Pytrivia.py`  — embedded below in namespace `Pytrivia`
  * `src/Pytrivia-quizapi.py`       — embedded below in namespace `Quizapi`

Chat transport, HTTP fetching, persistence files and AI explanations are
external collaborators; only their state effects on the per-room `QuizGame`
object are modelled.  Wall-clock timestamps (`datetime.now()`,
`total_seconds()`) are modelled as rationals and passed in explicitly.
Python sets of user ids become `Finset Nat`; the per-id dictionaries
(`players`, `leaderboard_data['rankings']`) become a `Finset`/function pair
resp. a `Nat → Option RegEntry` map, which is exactly the observable content
of the Python dicts.
-/

/-- Per-session participant stats: the value stored in `game.players[user_id]`
(`{'name', 'points', 'correct_answers', 'fast_bonuses'}`) in both files. -/
structure Player where
  name : String
  points : Nat
  correct_answers : Nat
  fast_bonuses : Nat
deriving DecidableEq

/-- A formatted question as built by `fetch_questions` in both files:
option key `{a,b,c,d}` to text, and `"<key>_correct"` to `"true"`/`"false"`. -/
structure Question where
  question : String
  answers : List (String × String)
  correct_answers : List (String × String)
  category : String
deriving DecidableEq

/-- An all-time leaderboard entry: `leaderboard_data['rankings'][str_user_id]`
holding `{'username', 'total_points', 'games_played'}`. -/
structure RegEntry where
  username : String
  total_points : Nat
  games_played : Nat
deriving DecidableEq

/-- The mutable per-chat `QuizGame` object shared by both source files.
`roster`/`stats` model the `players` dict, `rankings` models
`leaderboard_data['rankings']`.  Timer task handles are ambient (the effect
of a timer firing is modelled as an explicit transition). -/
structure QuizGame where
  roster : Finset Nat
  stats : Nat → Player
  current_question : Option Question
  question_start_time : Option Rat
  is_active : Bool
  questions : List Question
  current_question_index : Nat
  answered_players : Finset Nat
  correct_players : Finset Nat
  rankings : Nat → Option RegEntry

/-- Outcome signalled to the caller by `handle_answer` (the `query.answer(...)`
messages).  `handlerError` marks the paths where the Python code raises
(`KeyError` on an unknown option key, `TypeError` when `current_question`
or `question_start_time` is still `None`). -/
inductive AnswerResult where
  | noActiveGame
  | notJoined
  | alreadyCorrect
  | duplicate
  | accepted (correct : Bool) (bonus : Nat)
  | handlerError
deriving DecidableEq

/-- Outcome signalled by `join_trivia`. -/
inductive JoinResult where
  | noGame
  | gameInProgress
  | alreadyJoined
  | joinedActive
  | joinedWaiting
deriving DecidableEq

/-- Fresh stats created on join in both files:
`{'name': username, 'points': 0, 'correct_answers': 0, 'fast_bonuses': 0}`. -/
def initPlayer (username : String) : Player :=
  { name := username, points := 0, correct_answers := 0, fast_bonuses := 0 }

/-- `calculate_speed_bonus` — textually identical in both source files.
`answer_time - question_start_time` is the elapsed seconds. -/
def calculate_speed_bonus (question_start_time answer_time : Rat) : Nat :=
  let seconds_elapsed := answer_time - question_start_time
  if seconds_elapsed ≤ 5 then 3
  else if seconds_elapsed ≤ 15 then 2
  else if seconds_elapsed ≤ 30 then 1
  else 0

/-- Modelled from the spec: the claim C2 wording of the bonus table
(3 if t ≤ 5, 2 if 5 < t ≤ 15, 1 if 15 < t ≤ 30, else 0), kept separate from
`calculate_speed_bonus` so the code can be compared against it. -/
def specBonus (t : Rat) : Nat :=
  if t ≤ 5 then 3
  else if t ≤ 15 then 2
  else if t ≤ 30 then 1
  else 0

/-- The end-of-game crediting loop shared by both files: for every roster
member, create the ranking entry if absent and add the session points and
one played game.  Distinct dict keys are updated independently, so the
Python `for` loop is this pointwise map. -/
def creditRankings (g : QuizGame) : Nat → Option RegEntry :=
  fun uid =>
    if uid ∈ g.roster then
      let e := (g.rankings uid).getD
        { username := (g.stats uid).name, total_points := 0, games_played := 0 }
      some { e with total_points := e.total_points + (g.stats uid).points,
                    games_played := e.games_played + 1 }
    else g.rankings uid

namespace Pytrivia

/-- `QuizGame.end_game` (src/Pytriviagame/Pytrivia.py, lines 312–382):
deactivates the session and folds every roster member into
`leaderboard_data['rankings']`.  Message rendering is I/O only. -/
def end_game (g : QuizGame) : QuizGame :=
  { g with is_active := false, rankings := creditRankings g }

/-- `QuizGame.show_question` (lines 103–161): bail out on an empty question
list, end the game when the index has reached the end, otherwise clear the
per-question sets and present question `current_question_index` at `now`
(re-arming the 60-second timer, which is ambient here). -/
def show_question (now : Rat) (g : QuizGame) : QuizGame :=
  if g.questions = [] then g
  else if h : g.current_question_index < g.questions.length then
    { g with answered_players := ∅, correct_players := ∅,
             current_question := some (g.questions.get ⟨g.current_question_index, h⟩),
             question_start_time := some now }
  else end_game g

/-- The 30-second continuation scheduled by `auto_advance_question`
(lines 299–306): if the game is still active, advance the index and show the
next question.  Note the body consults only `is_active`; it carries no
(index, timestamp) staleness token. -/
def show_next_question (now : Rat) (g : QuizGame) : QuizGame :=
  if g.is_active then
    show_question now { g with current_question_index := g.current_question_index + 1 }
  else g

/-- `handle_answer` (lines 707–771): guard chain, then mark the caller as
attempted, look the pressed key up in `correct_answers` (an unguarded dict
access — `handlerError` is the raising path), and score a correct answer
with `1 + calculate_speed_bonus`.  This variant never advances the question
("Don't auto-advance, let the timer complete"). -/
def handle_answer (g : QuizGame) (uid : Nat) (answer_key : String) (answer_time : Rat) :
    QuizGame × AnswerResult :=
  if g.is_active = false then (g, .noActiveGame)
  else if uid ∉ g.roster then (g, .notJoined)
  else if uid ∈ g.answered_players then (g, .duplicate)
  else
    let g1 := { g with answered_players := insert uid g.answered_players }
    match g1.current_question with
    | none => (g1, .handlerError)
    | some q =>
      match q.correct_answers.lookup (answer_key ++ "_correct") with
      | none => (g1, .handlerError)
      | some v =>
        if v = "true" then
          let g2 := { g1 with correct_players := insert uid g1.correct_players }
          match g2.question_start_time with
          | none => (g2, .handlerError)
          | some t0 =>
            let bonus := calculate_speed_bonus t0 answer_time
            let p := g2.stats uid
            let g3 := { g2 with stats := fun u =>
              (if u = uid then
                { p with points := p.points + (1 + bonus),
                         correct_answers := p.correct_answers + 1,
                         fast_bonuses := p.fast_bonuses + (if 0 < bonus then 1 else 0) }
              else g2.stats u) }
            (g3, .accepted true bonus)
        else (g1, .accepted false 0)

/-- `join_trivia` (lines 452–507): signalled no-op when already registered,
otherwise add the participant with fresh stats; the acknowledgement text
depends on whether the game is already running. -/
def join_trivia (g : QuizGame) (uid : Nat) (username : String) : QuizGame × JoinResult :=
  if uid ∈ g.roster then (g, .alreadyJoined)
  else
    let g1 := { g with roster := insert uid g.roster,
                       stats := fun u => if u = uid then initPlayer username else g.stats u }
    (g1, if g1.is_active then .joinedActive else .joinedWaiting)

/-- `reset_scores` (lines 773–797): administrative reset that empties the
roster and the whole leaderboard. -/
def reset_scores (g : QuizGame) : QuizGame :=
  { g with roster := ∅, stats := fun _ => initPlayer (""),
           rankings := fun _ => none }

/-- `force_end_game` (lines 799–856): only acts on an active game; runs
`end_game` (crediting the registry) and then clears the session state,
resetting the question index to 0 and dropping the question list. -/
def force_end (g : QuizGame) : QuizGame :=
  if g.is_active then
    let g1 := end_game g
    { g1 with is_active := false, current_question := none,
              current_question_index := 0, questions := [],
              answered_players := ∅, correct_players := ∅ }
  else g

/-- The external triggers that mutate one session in this variant.
`startGame` carries the successfully fetched question list; `timerFire` is
the 30-second continuation of the 60-second deadline timer reaching its
body; `nextGame` is the manual `/next_game` advance. -/
inductive Event where
  | join (uid : Nat) (username : String)
  | startGame (qs : List Question) (now : Rat)
  | answer (uid : Nat) (answer_key : String) (t : Rat)
  | timerFire (now : Rat)
  | nextGame (now : Rat)
  | forceEnd
deriving DecidableEq

/-- Environment assumption on events: a successful fetch returns a non-empty
question batch (QuestionSet invariant "non-empty when a game starts"). -/
def EventOK : Event → Prop
  | .startGame qs _ => qs ≠ []
  | _ => True

/-- One serialized transition of the session, dispatching to the embedded
handlers.  `startGame` mirrors `start_game` (lines 517–566): rejected while
active or with an empty roster, otherwise installs the fetched questions,
activates and presents (the index is *not* reset there).  `nextGame`
mirrors `next_game` (lines 569–599). -/
def step (e : Event) (g : QuizGame) : QuizGame :=
  match e with
  | .join uid name => (join_trivia g uid name).1
  | .startGame qs now =>
      if g.is_active then g
      else if g.roster = ∅ then g
      else show_question now { g with questions := qs, is_active := true }
  | .answer uid key t => (handle_answer g uid key t).1
  | .timerFire now => show_next_question now g
  | .nextGame now =>
      if g.is_active then
        show_question now { g with current_question_index := g.current_question_index + 1 }
      else g
  | .forceEnd => force_end g

/-- States of one session: a freshly announced game (`/start_trivia` creates
the object inactive, at index 0, with no questions) followed by any sequence
of transitions. -/
inductive Reachable : QuizGame → Prop where
  | announced (g : QuizGame) (h1 : g.is_active = false)
      (h2 : g.current_question_index = 0) (h3 : g.questions = []) : Reachable g
  | next (g : QuizGame) (e : Event) (hg : Reachable g) (he : EventOK e) :
      Reachable (step e g)

end Pytrivia

namespace Quizapi

/-- `QuizGame.end_game` (src/Pytrivia-quizapi.py, lines 197–234): same state
effect as the other variant. -/
def end_game (g : QuizGame) : QuizGame :=
  { g with is_active := false, rankings := creditRankings g }

/-- `QuizGame.show_question` (lines 83–124): cancel pending timers (ambient),
end the game when the index has reached the end, otherwise clear the
per-question sets and present question `current_question_index` at `now`.
This variant has no empty-list early return. -/
def show_question (now : Rat) (g : QuizGame) : QuizGame :=
  if h : g.current_question_index < g.questions.length then
    { g with answered_players := ∅, correct_players := ∅,
             current_question := some (g.questions.get ⟨g.current_question_index, h⟩),
             question_start_time := some now }
  else end_game g

/-- `auto_advance_question` (lines 185–195): after the 60-second sleep, if
the game is still active, advance and show the next question.  As in the
other variant, the body consults only `is_active` — no staleness token. -/
def auto_advance_question (now : Rat) (g : QuizGame) : QuizGame :=
  if g.is_active then
    show_question now { g with current_question_index := g.current_question_index + 1 }
  else g

/-- The trailing check of `handle_answer` (lines 564–571): if every roster
member has attempted, or everyone is correct, advance immediately. -/
def post_advance (now : Rat) (g : QuizGame) : QuizGame :=
  if g.roster \ g.answered_players = ∅ ∨ g.correct_players.card = g.roster.card then
    show_question now { g with current_question_index := g.current_question_index + 1 }
  else g

/-- `handle_answer` (lines 486–571): guard chain (including the extra
already-correct check), attempt marking, unguarded correctness lookup,
scoring, the everyone-correct immediate advance inside the correct branch
(lines 551–558), and the trailing everyone-attempted check.  The raising
paths (`handlerError`) skip both advance checks, as the Python exception
would. -/
def handle_answer (now : Rat) (g : QuizGame) (uid : Nat) (answer_key : String) :
    QuizGame × AnswerResult :=
  if g.is_active = false then (g, .noActiveGame)
  else if uid ∉ g.roster then (g, .notJoined)
  else if uid ∈ g.correct_players then (g, .alreadyCorrect)
  else if uid ∈ g.answered_players then (g, .duplicate)
  else
    let g1 := { g with answered_players := insert uid g.answered_players }
    match g1.current_question with
    | none => (g1, .handlerError)
    | some q =>
      match q.correct_answers.lookup (answer_key ++ "_correct") with
      | none => (g1, .handlerError)
      | some v =>
        if v = "true" then
          let g2 := { g1 with correct_players := insert uid g1.correct_players }
          match g2.question_start_time with
          | none => (g2, .handlerError)
          | some t0 =>
            let bonus := calculate_speed_bonus t0 now
            let p := g2.stats uid
            let g3 := { g2 with stats := fun u =>
              (if u = uid then
                { p with points := p.points + (1 + bonus),
                         correct_answers := p.correct_answers + 1,
                         fast_bonuses := p.fast_bonuses + (if 0 < bonus then 1 else 0) }
              else g2.stats u) }
            let g4 :=
              if g3.correct_players.card = g3.roster.card then
                show_question now { g3 with current_question_index := g3.current_question_index + 1 }
              else g3
            (post_advance now g4, .accepted true bonus)
        else (post_advance now g1, .accepted false 0)

/-- `join_trivia` (lines 304–342): this variant rejects joins while a game is
in progress; otherwise as in the other variant. -/
def join_trivia (g : QuizGame) (uid : Nat) (username : String) : QuizGame × JoinResult :=
  if g.is_active then (g, .gameInProgress)
  else if uid ∈ g.roster then (g, .alreadyJoined)
  else
    ({ g with roster := insert uid g.roster,
              stats := fun u => if u = uid then initPlayer username else g.stats u },
     .joinedWaiting)

end Quizapi

/-- The answer-tracking invariant of claim C3: the correct set is contained in
the attempted set, which is contained in the roster. -/
def SetsInv (g : QuizGame) : Prop :=
  g.correct_players ⊆ g.answered_players ∧ g.answered_players ⊆ g.roster

/-- The activity invariant behind claim C5: an active session has a non-empty
question list and an in-range question index. -/
def GoodActive (g : QuizGame) : Prop :=
  g.is_active = true → g.questions ≠ [] ∧ g.current_question_index < g.questions.length

/-- Pointwise order on optional registry entries: an entry can be created or
grow, never shrink or disappear. -/
def entryLE : Option RegEntry → Option RegEntry → Prop
  | none, _ => True
  | some _, none => False
  | some e1, some e2 => e1.total_points ≤ e2.total_points ∧ e1.games_played ≤ e2.games_played

/-- Registry-wide monotonicity. -/
def regLE (r1 r2 : Nat → Option RegEntry) : Prop :=
  ∀ uid, entryLE (r1 uid) (r2 uid)

/-! Concrete states used to evaluate the embedded code on specific inputs. -/

/-- A four-option question whose correct key is `"a"`. -/
def q0 : Question :=
  { question := "sample", answers := [("a", "4"), ("b", "5"), ("c", "6"), ("d", "7")],
    correct_answers :=
      [("a_correct", "true"), ("b_correct", "false"),
       ("c_correct", "false"), ("d_correct", "false")],
    category := "math" }

/-- Blank stats table. -/
def initStats : Nat → Player := fun _ => initPlayer ("")

/-- Empty all-time registry. -/
def noRegistry : Nat → Option RegEntry := fun _ => none

/-- A freshly announced session. -/
def announcedG : QuizGame :=
  { roster := ∅, stats := initStats, current_question := none,
    question_start_time := none, is_active := false, questions := [],
    current_question_index := 0, answered_players := ∅, correct_players := ∅,
    rankings := noRegistry }

/-- A running two-player session on question 0 of two, presented at time 0. -/
def gActive : QuizGame :=
  { roster := {1, 2}, stats := initStats, current_question := some q0,
    question_start_time := some 0, is_active := true, questions := [q0, q0],
    current_question_index := 0, answered_players := ∅, correct_players := ∅,
    rankings := noRegistry }

/-- `gActive` with player 1 having already attempted the current question. -/
def gDup : QuizGame := { gActive with answered_players := {1} }

/-- `gActive` with only player 1 still to attempt the current question. -/
def gOneLeft : QuizGame := { gActive with answered_players := {2} }

/-- A running single-player session on the last (only) question. -/
def gSolo : QuizGame := { gActive with roster := {1}, questions := [q0] }

/-- A running session on question 1 of 3; the 30-second continuation armed
during question 0 is still pending when this state is observed. -/
def gStale : QuizGame :=
  { gActive with roster := {1}, questions := [q0, q0, q0], current_question_index := 1 }

/-- A running session during the pre-question delay of `start_game`: the game
is active but no question has been presented yet. -/
def gNoQuestion : QuizGame :=
  { gActive with current_question := none, question_start_time := none }

/-- An announced session whose all-time registry holds an entry for player 1. -/
def gReg : QuizGame :=
  { announcedG with rankings := fun u =>
      if u = 1 then some { username := "A", total_points := 5, games_played := 2 } else none }

/-- The session reached by: announce, player 1 joins, the game starts with
three questions, and the admin advances once — active on question index 1. -/
def g5a : QuizGame :=
  Pytrivia.step (.nextGame 10)
    (Pytrivia.step (.startGame [q0, q0, q0] 0)
      (Pytrivia.step (.join 1 ("A")) announcedG))

/-! ## Theorems -/

/-- Claim C1: in an active session, a second `SubmitAnswer` by an identity
already in the attempted set of the current question is rejected with a
duplicate-answer signal and leaves the whole session state unchanged
(attempted and correct sets, points, correct count, speed-bonus count and
question index included), in both source variants. -/
theorem duplicate_answer_rejected_no_state_change :
    (∀ (g : QuizGame) (uid : Nat) (k : String) (t : Rat),
        g.is_active = true → uid ∈ g.roster → uid ∈ g.answered_players →
        Pytrivia.handle_answer g uid k t = (g, AnswerResult.duplicate))
  ∧ (∀ (now : Rat) (g : QuizGame) (uid : Nat) (k : String),
        g.is_active = true → uid ∈ g.roster → uid ∈ g.answered_players →
        (Quizapi.handle_answer now g uid k).1 = g
        ∧ ((Quizapi.handle_answer now g uid k).2 = AnswerResult.duplicate
           ∨ (Quizapi.handle_answer now g uid k).2 = AnswerResult.alreadyCorrect)) := by
  constructor
  · intro g uid k t ha hr hd
    simp [Pytrivia.handle_answer, ha, hr, hd]
  · intro now g uid k ha hr hd
    by_cases hc : uid ∈ g.correct_players
    · simp [Quizapi.handle_answer, ha, hr, hc]
    · simp [Quizapi.handle_answer, ha, hr, hc, hd]

/-- Witness for C1 at a concrete duplicate call. -/
theorem duplicate_answer_rejected_no_state_change_witness :
    (gDup.is_active = true ∧ 1 ∈ gDup.roster ∧ 1 ∈ gDup.answered_players)
    ∧ Pytrivia.handle_answer gDup 1 ("a") 3 = (gDup, AnswerResult.duplicate)
    ∧ (Quizapi.handle_answer 3 gDup 1 ("a")).1 = gDup :=
  ⟨⟨by decide, by decide, by decide⟩,
   duplicate_answer_rejected_no_state_change.1 gDup 1 ("a") 3
     (by decide) (by decide) (by decide),
   (duplicate_answer_rejected_no_state_change.2 3 gDup 1 ("a")
     (by decide) (by decide) (by decide)).1⟩

/-- Neither branch of `Quizapi.show_question` touches the stats table. -/
theorem quizapi_show_question_stats (now : Rat) (g : QuizGame) :
    (Quizapi.show_question now g).stats = g.stats := by
  unfold Quizapi.show_question Quizapi.end_game
  split <;> rfl

/-- The trailing advance check never touches the stats table. -/
theorem quizapi_post_advance_stats (now : Rat) (g : QuizGame) :
    (Quizapi.post_advance now g).stats = g.stats := by
  unfold Quizapi.post_advance
  split
  · rw [quizapi_show_question_stats]
  · rfl

/-- Claim C2: an accepted correct answer is awarded exactly `1 + bonus(t)`
points where `bonus` follows the 5/15/30-second table, bumps the correct
count by one and the speed-bonus count by one exactly when the bonus is
positive; an accepted wrong answer awards nothing and changes no counters.
Both variants agree. -/
theorem scoring_awards_one_plus_bonus :
    (∀ t0 t : Rat, calculate_speed_bonus t0 t = specBonus (t - t0))
  ∧ (∀ t : Rat, (t ≤ 5 → specBonus t = 3) ∧ (5 < t → t ≤ 15 → specBonus t = 2)
       ∧ (15 < t → t ≤ 30 → specBonus t = 1) ∧ (30 < t → specBonus t = 0))
  ∧ (∀ (g : QuizGame) (uid : Nat) (k : String) (t t0 : Rat) (q : Question),
       g.is_active = true → uid ∈ g.roster → uid ∉ g.answered_players →
       g.current_question = some q → g.question_start_time = some t0 →
       q.correct_answers.lookup (k ++ "_correct") = some ("true") →
       ((Pytrivia.handle_answer g uid k t).2
           = AnswerResult.accepted true (specBonus (t - t0))
        ∧ ((Pytrivia.handle_answer g uid k t).1.stats uid).points
            = (g.stats uid).points + (1 + specBonus (t - t0))
        ∧ ((Pytrivia.handle_answer g uid k t).1.stats uid).correct_answers
            = (g.stats uid).correct_answers + 1
        ∧ ((Pytrivia.handle_answer g uid k t).1.stats uid).fast_bonuses
            = (g.stats uid).fast_bonuses + (if 0 < specBonus (t - t0) then 1 else 0)))
  ∧ (∀ (g : QuizGame) (uid : Nat) (k : String) (t : Rat) (q : Question) (v : String),
       g.is_active = true → uid ∈ g.roster → uid ∉ g.answered_players →
       g.current_question = some q →
       q.correct_answers.lookup (k ++ "_correct") = some v → v ≠ "true" →
       ((Pytrivia.handle_answer g uid k t).2 = AnswerResult.accepted false 0
        ∧ (Pytrivia.handle_answer g uid k t).1.stats uid = g.stats uid))
  ∧ (∀ (now t0 : Rat) (g : QuizGame) (uid : Nat) (k : String) (q : Question),
       g.is_active = true → uid ∈ g.roster → uid ∉ g.answered_players →
       uid ∉ g.correct_players →
       g.current_question = some q → g.question_start_time = some t0 →
       q.correct_answers.lookup (k ++ "_correct") = some ("true") →
       ((Quizapi.handle_answer now g uid k).2
           = AnswerResult.accepted true (specBonus (now - t0))
        ∧ ((Quizapi.handle_answer now g uid k).1.stats uid).points
            = (g.stats uid).points + (1 + specBonus (now - t0))
        ∧ ((Quizapi.handle_answer now g uid k).1.stats uid).correct_answers
            = (g.stats uid).correct_answers + 1
        ∧ ((Quizapi.handle_answer now g uid k).1.stats uid).fast_bonuses
            = (g.stats uid).fast_bonuses + (if 0 < specBonus (now - t0) then 1 else 0)))
  ∧ (∀ (now : Rat) (g : QuizGame) (uid : Nat) (k : String) (q : Question) (v : String),
       g.is_active = true → uid ∈ g.roster → uid ∉ g.answered_players →
       uid ∉ g.correct_players →
       g.current_question = some q →
       q.correct_answers.lookup (k ++ "_correct") = some v → v ≠ "true" →
       ((Quizapi.handle_answer now g uid k).2 = AnswerResult.accepted false 0
        ∧ (Quizapi.handle_answer now g uid k).1.stats uid = g.stats uid)) := by
  refine ⟨fun t0 t => rfl, ?_, ?_, ?_, ?_, ?_⟩
  · intro t
    refine ⟨fun h => ?_, fun h1 h2 => ?_, fun h1 h2 => ?_, fun h => ?_⟩ <;>
      unfold specBonus <;> split_ifs <;> linarith
  · intro g uid k t t0 q ha hr hd hq ht hv
    have hcb : calculate_speed_bonus t0 t = specBonus (t - t0) := rfl
    simp [Pytrivia.handle_answer, ha, hr, hd, hq, ht, hv, hcb]
  · intro g uid k t q v ha hr hd hq hv hne
    simp [Pytrivia.handle_answer, ha, hr, hd, hq, hv, hne]
  · intro now t0 g uid k q ha hr hd hc hq ht hv
    have hcb : calculate_speed_bonus t0 now = specBonus (now - t0) := rfl
    simp [Quizapi.handle_answer, ha, hr, hd, hc, hq, ht, hv, hcb,
          quizapi_post_advance_stats, quizapi_show_question_stats]
    split <;>
      simp [quizapi_post_advance_stats, quizapi_show_question_stats]
  · intro now g uid k q v ha hr hd hc hq hv hne
    simp [Quizapi.handle_answer, ha, hr, hd, hc, hq, hv, hne,
          quizapi_post_advance_stats]

/-- Witness for C2 at a concrete accepted answer (player 1, key a, 3 seconds
after presentation). -/
theorem scoring_awards_one_plus_bonus_witness :
    (gActive.is_active = true ∧ 1 ∈ gActive.roster ∧ 1 ∉ gActive.answered_players
     ∧ gActive.current_question = some q0
     ∧ q0.correct_answers.lookup ("a" ++ "_correct") = some ("true"))
    ∧ ((Pytrivia.handle_answer gActive 1 ("a") 3).1.stats 1).points
        = (gActive.stats 1).points + (1 + specBonus (3 - 0)) :=
  ⟨⟨by decide, by decide, by decide, rfl, rfl⟩,
   (scoring_awards_one_plus_bonus.2.2.1 gActive 1 ("a") 3 0 q0
      (by decide) (by decide) (by decide) rfl rfl rfl).2.1⟩

/-- The answer handler of the Pytrivia variant preserves the set invariant. -/
theorem pytrivia_handle_inv (g : QuizGame) (uid : Nat) (k : String) (t : Rat)
    (h : SetsInv g) : SetsInv (Pytrivia.handle_answer g uid k t).1 := by
  unfold Pytrivia.handle_answer
  split_ifs with ha hr hd
  any_goals exact h
  push_neg at hr
  rcases h with ⟨h1, h2⟩
  have hins : insert uid g.answered_players ⊆ g.roster :=
    Finset.insert_subset_iff.mpr ⟨hr, h2⟩
  have hsub : g.correct_players ⊆ insert uid g.answered_players :=
    h1.trans (Finset.subset_insert uid g.answered_players)
  have hii : insert uid g.correct_players ⊆ insert uid g.answered_players :=
    Finset.insert_subset_insert uid h1
  dsimp only
  repeat' split
  all_goals first
    | exact ⟨hsub, hins⟩
    | exact ⟨hii, hins⟩

/-- Presenting a question (or ending the game) preserves the set invariant. -/
theorem quizapi_show_question_inv (now : Rat) (g : QuizGame) (h : SetsInv g) :
    SetsInv (Quizapi.show_question now g) := by
  unfold Quizapi.show_question Quizapi.end_game
  split
  · exact ⟨Finset.empty_subset _, Finset.empty_subset _⟩
  · exact h

/-- The trailing advance check preserves the set invariant. -/
theorem quizapi_post_advance_inv (now : Rat) (g : QuizGame) (h : SetsInv g) :
    SetsInv (Quizapi.post_advance now g) := by
  unfold Quizapi.post_advance
  split
  · exact quizapi_show_question_inv now _ h
  · exact h

/-- The answer handler of the quizapi variant preserves the set invariant. -/
theorem quizapi_handle_inv (now : Rat) (g : QuizGame) (uid : Nat) (k : String)
    (h : SetsInv g) : SetsInv (Quizapi.handle_answer now g uid k).1 := by
  unfold Quizapi.handle_answer
  split_ifs with ha hr hc hd
  any_goals exact h
  push_neg at hr
  rcases h with ⟨h1, h2⟩
  have hins : insert uid g.answered_players ⊆ g.roster :=
    Finset.insert_subset_iff.mpr ⟨hr, h2⟩
  have hsub : g.correct_players ⊆ insert uid g.answered_players :=
    h1.trans (Finset.subset_insert uid g.answered_players)
  have hii : insert uid g.correct_players ⊆ insert uid g.answered_players :=
    Finset.insert_subset_insert uid h1
  dsimp only
  repeat' split
  all_goals first
    | exact ⟨hsub, hins⟩
    | exact ⟨hii, hins⟩
    | exact quizapi_post_advance_inv _ _ ⟨hsub, hins⟩
    | exact quizapi_post_advance_inv _ _ ⟨hii, hins⟩
    | exact quizapi_post_advance_inv _ _ (quizapi_show_question_inv _ _ ⟨hii, hins⟩)

/-- Any property preserved by a step is preserved by a whole call sequence. -/
theorem foldl_preserve {α : Type} (P : QuizGame → Prop) (f : QuizGame → α → QuizGame)
    (hf : ∀ g a, P g → P (f g a)) :
    ∀ (l : List α) (g : QuizGame), P g → P (l.foldl f g) := by
  intro l
  induction l with
  | nil => exact fun g hg => hg
  | cons a l ih => exact fun g hg => ih (f g a) (hf g a hg)

/-- Claim C3: under any sequence of `SubmitAnswer` calls, the correct set
stays inside the attempted set, the attempted set stays inside the roster so
its size never exceeds the roster size, and a repeat call by an identity
already in the attempted set changes nothing (so each identity enters the
attempted set at most once per question), in both variants. -/
theorem answer_sets_invariant :
    (∀ (g : QuizGame) (uid : Nat) (k : String) (t : Rat),
        SetsInv g → SetsInv (Pytrivia.handle_answer g uid k t).1)
  ∧ (∀ (g : QuizGame), SetsInv g → ∀ calls : List (Nat × String × Rat),
        SetsInv (calls.foldl
          (fun s c => (Pytrivia.handle_answer s c.1 c.2.1 c.2.2).1) g))
  ∧ (∀ (now : Rat) (g : QuizGame) (uid : Nat) (k : String),
        SetsInv g → SetsInv (Quizapi.handle_answer now g uid k).1)
  ∧ (∀ (g : QuizGame), SetsInv g → ∀ calls : List (Rat × Nat × String),
        SetsInv (calls.foldl
          (fun s c => (Quizapi.handle_answer c.1 s c.2.1 c.2.2).1) g))
  ∧ (∀ g : QuizGame, SetsInv g →
        g.correct_players ⊆ g.answered_players
        ∧ g.answered_players.card ≤ g.roster.card)
  ∧ (∀ (g : QuizGame) (uid : Nat) (k : String) (t : Rat),
        uid ∈ g.answered_players → (Pytrivia.handle_answer g uid k t).1 = g)
  ∧ (∀ (now : Rat) (g : QuizGame) (uid : Nat) (k : String),
        uid ∈ g.answered_players → (Quizapi.handle_answer now g uid k).1 = g) := by
  refine ⟨fun g uid k t h => pytrivia_handle_inv g uid k t h, ?_, ?_, ?_, ?_, ?_, ?_⟩
  · intro g hg calls
    exact foldl_preserve SetsInv _
      (fun s c hs => pytrivia_handle_inv s c.1 c.2.1 c.2.2 hs) calls g hg
  · exact fun now g uid k h => quizapi_handle_inv now g uid k h
  · intro g hg calls
    exact foldl_preserve SetsInv _
      (fun s c hs => quizapi_handle_inv c.1 s c.2.1 c.2.2 hs) calls g hg
  · exact fun g h => ⟨h.1, Finset.card_le_card h.2⟩
  · intro g uid k t hd
    unfold Pytrivia.handle_answer
    split_ifs <;> rfl
  · intro now g uid k hd
    unfold Quizapi.handle_answer
    split_ifs <;> rfl

/-- Witness for C3: a concrete two-call sequence on the running game. -/
theorem answer_sets_invariant_witness :
    SetsInv gActive
    ∧ SetsInv ([(1, ("a"), (3 : Rat)), (2, ("b"), (7 : Rat))].foldl
        (fun s c => (Pytrivia.handle_answer s c.1 c.2.1 c.2.2).1) gActive) :=
  ⟨⟨by decide, by decide⟩,
   answer_sets_invariant.2.1 gActive ⟨by decide, by decide⟩
     [(1, ("a"), (3 : Rat)), (2, ("b"), (7 : Rat))]⟩

/-- Claim C4 (violated by the code): in the quizapi variant, when the last
accepted answer is correct and completes the roster, the everyone-correct
branch advances and runs `end_game`, and the trailing everyone-attempted
check then advances and runs `end_game` a second time: the single-player
single-question game below leaves the registry with `games_played = 2` and
twice the session points, while one `end_game` pass credits one game. -/
theorem quizapi_end_game_double_credit :
    (Quizapi.handle_answer 3 gSolo 1 ("a")).1.rankings 1
      = some { username := "", total_points := 8, games_played := 2 }
    ∧ (Quizapi.end_game
        ((Quizapi.handle_answer 3 gSolo 1 ("a")).1)).rankings 1
      ≠ (Quizapi.handle_answer 3 gSolo 1 ("a")).1.rankings 1
    ∧ (Quizapi.handle_answer 3 gSolo 1 ("a")).1.current_question_index = 2
    ∧ gSolo.questions.length = 1 := by
  norm_num [Quizapi.handle_answer, Quizapi.post_advance, Quizapi.show_question,
    Quizapi.end_game, creditRankings, calculate_speed_bonus, gSolo, gActive, q0,
    initStats, initPlayer, noRegistry, List.lookup]
  decide

/-- `join_trivia` (Pytrivia) touches only the roster and stats. -/
theorem pytrivia_join_frame (g : QuizGame) (uid : Nat) (name : String) :
    (Pytrivia.join_trivia g uid name).1.is_active = g.is_active
    ∧ (Pytrivia.join_trivia g uid name).1.questions = g.questions
    ∧ (Pytrivia.join_trivia g uid name).1.current_question_index
        = g.current_question_index
    ∧ (Pytrivia.join_trivia g uid name).1.rankings = g.rankings := by
  unfold Pytrivia.join_trivia
  split <;> exact ⟨rfl, rfl, rfl, rfl⟩

/-- `handle_answer` (Pytrivia) never changes the activity flag, the question
list, the question index, the roster or the registry. -/
theorem pytrivia_handle_frame (g : QuizGame) (uid : Nat) (k : String) (t : Rat) :
    (Pytrivia.handle_answer g uid k t).1.is_active = g.is_active
    ∧ (Pytrivia.handle_answer g uid k t).1.questions = g.questions
    ∧ (Pytrivia.handle_answer g uid k t).1.current_question_index
        = g.current_question_index
    ∧ (Pytrivia.handle_answer g uid k t).1.roster = g.roster
    ∧ (Pytrivia.handle_answer g uid k t).1.rankings = g.rankings := by
  unfold Pytrivia.handle_answer
  split_ifs <;> (dsimp only; repeat' split) <;> exact ⟨rfl, rfl, rfl, rfl, rfl⟩

/-- `show_question` (Pytrivia) never changes the question index or list. -/
theorem pytrivia_show_question_frame (now : Rat) (g : QuizGame) :
    (Pytrivia.show_question now g).current_question_index = g.current_question_index
    ∧ (Pytrivia.show_question now g).questions = g.questions := by
  unfold Pytrivia.show_question Pytrivia.end_game
  split
  · exact ⟨rfl, rfl⟩
  · split <;> exact ⟨rfl, rfl⟩

/-- Presenting with a non-empty question list yields a good state. -/
theorem pytrivia_show_question_good_of_ne (now : Rat) (g : QuizGame)
    (h : g.questions ≠ []) : GoodActive (Pytrivia.show_question now g) := by
  unfold Pytrivia.show_question
  split
  · next heq => exact absurd heq h
  · split
    · next hlt => exact fun _ => ⟨h, hlt⟩
    · intro ha
      simp [Pytrivia.end_game] at ha

/-- `show_question` (Pytrivia) preserves goodness. -/
theorem pytrivia_show_question_good (now : Rat) (g : QuizGame)
    (hg : GoodActive g) : GoodActive (Pytrivia.show_question now g) := by
  by_cases h : g.questions = []
  · unfold Pytrivia.show_question
    rw [if_pos h]
    exact hg
  · exact pytrivia_show_question_good_of_ne now g h

/-- Every transition preserves goodness (given well-formed events). -/
theorem pytrivia_step_good (e : Pytrivia.Event) (g : QuizGame)
    (he : Pytrivia.EventOK e) (hg : GoodActive g) :
    GoodActive (Pytrivia.step e g) := by
  cases e with
  | join uid name =>
      have hf := pytrivia_join_frame g uid name
      intro ha
      dsimp only [Pytrivia.step] at ha ⊢
      rw [hf.1] at ha
      rw [hf.2.1, hf.2.2.1]
      exact hg ha
  | startGame qs now =>
      dsimp only [Pytrivia.step]
      split_ifs with h1 h2
      · exact hg
      · exact hg
      · exact pytrivia_show_question_good_of_ne now _ he
  | answer uid key t =>
      have hf := pytrivia_handle_frame g uid key t
      intro ha
      dsimp only [Pytrivia.step] at ha ⊢
      rw [hf.1] at ha
      rw [hf.2.1, hf.2.2.1]
      exact hg ha
  | timerFire now =>
      dsimp only [Pytrivia.step]
      unfold Pytrivia.show_next_question
      split
      · next ha => exact pytrivia_show_question_good_of_ne now _ (hg ha).1
      · exact hg
  | nextGame now =>
      dsimp only [Pytrivia.step]
      split
      · next ha => exact pytrivia_show_question_good_of_ne now _ (hg ha).1
      · exact hg
  | forceEnd =>
      dsimp only [Pytrivia.step]
      unfold Pytrivia.force_end
      split
      · intro ha
        simp at ha
      · exact hg

/-- Every reachable session state is good. -/
theorem pytrivia_reachable_good (g : QuizGame) (h : Pytrivia.Reachable g) :
    GoodActive g := by
  induction h with
  | announced g h1 h2 h3 =>
      intro ha
      rw [h1] at ha
      cases ha
  | next g e hg he ih => exact pytrivia_step_good e g he ih

/-- Claim C5 (amended): across every transition of a reachable session,
the question index never decreases except that an accepted force-end resets
it to 0 while tearing the session down; it grows only from an active state;
an active post-state always has its index strictly below the question-list
length (so an advance that reaches the end immediately deactivates); and a
deadline fire on the last question is exactly `end_game` of the advanced
state, i.e. reaching `len(questions)` triggers end-of-game. -/
theorem index_monotone_amended (g : QuizGame) (hg : Pytrivia.Reachable g)
    (e : Pytrivia.Event) (he : Pytrivia.EventOK e) :
    (e ≠ Pytrivia.Event.forceEnd →
        g.current_question_index ≤ (Pytrivia.step e g).current_question_index)
  ∧ (g.current_question_index < (Pytrivia.step e g).current_question_index →
        g.is_active = true)
  ∧ ((Pytrivia.step e g).is_active = true →
        (Pytrivia.step e g).current_question_index
          < (Pytrivia.step e g).questions.length)
  ∧ (∀ now : Rat, g.is_active = true →
        g.current_question_index + 1 = g.questions.length →
        Pytrivia.step (Pytrivia.Event.timerFire now) g
          = Pytrivia.end_game
              { g with current_question_index := g.current_question_index + 1 })
  ∧ (g.is_active = true →
        (Pytrivia.step Pytrivia.Event.forceEnd g).current_question_index = 0) := by
  refine ⟨?_, ?_, ?_, ?_, ?_⟩
  · intro hne
    cases e with
    | join uid name =>
        dsimp only [Pytrivia.step]
        rw [(pytrivia_join_frame g uid name).2.2.1]
    | startGame qs now =>
        dsimp only [Pytrivia.step]
        split_ifs
        · exact le_refl _
        · exact le_refl _
        · rw [(pytrivia_show_question_frame now _).1]
    | answer uid key t =>
        dsimp only [Pytrivia.step]
        rw [(pytrivia_handle_frame g uid key t).2.2.1]
    | timerFire now =>
        dsimp only [Pytrivia.step]
        unfold Pytrivia.show_next_question
        split
        · rw [(pytrivia_show_question_frame now _).1]
          exact Nat.le_succ _
        · exact le_refl _
    | nextGame now =>
        dsimp only [Pytrivia.step]
        split
        · rw [(pytrivia_show_question_frame now _).1]
          exact Nat.le_succ _
        · exact le_refl _
    | forceEnd => exact absurd rfl hne
  · intro hlt
    cases e with
    | join uid name =>
        dsimp only [Pytrivia.step] at hlt
        rw [(pytrivia_join_frame g uid name).2.2.1] at hlt
        exact absurd hlt (lt_irrefl _)
    | startGame qs now =>
        dsimp only [Pytrivia.step] at hlt
        split_ifs at hlt
        · exact absurd hlt (lt_irrefl _)
        · exact absurd hlt (lt_irrefl _)
        · rw [(pytrivia_show_question_frame now _).1] at hlt
          exact absurd hlt (lt_irrefl _)
    | answer uid key t =>
        dsimp only [Pytrivia.step] at hlt
        rw [(pytrivia_handle_frame g uid key t).2.2.1] at hlt
        exact absurd hlt (lt_irrefl _)
    | timerFire now =>
        dsimp only [Pytrivia.step] at hlt
        unfold Pytrivia.show_next_question at hlt
        split at hlt
        · next ha => exact ha
        · exact absurd hlt (lt_irrefl _)
    | nextGame now =>
        dsimp only [Pytrivia.step] at hlt
        split at hlt
        · next ha => exact ha
        · exact absurd hlt (lt_irrefl _)
    | forceEnd =>
        dsimp only [Pytrivia.step] at hlt
        unfold Pytrivia.force_end at hlt
        split at hlt
        · next ha => exact ha
        · exact absurd hlt (lt_irrefl _)
  · exact fun ha =>
      (pytrivia_step_good e g he (pytrivia_reachable_good g hg) ha).2
  · intro now ha hlen
    have hgood := pytrivia_reachable_good g hg ha
    dsimp only [Pytrivia.step]
    unfold Pytrivia.show_next_question
    rw [if_pos ha]
    unfold Pytrivia.show_question
    rw [if_neg hgood.1,
        dif_neg (show ¬(g.current_question_index + 1 < g.questions.length) by omega)]
  · intro ha
    dsimp only [Pytrivia.step]
    unfold Pytrivia.force_end
    rw [if_pos ha]

/-- Witness for C5 at the freshly announced session and a join event. -/
theorem index_monotone_amended_witness :
    Pytrivia.Reachable announcedG
    ∧ ((Pytrivia.Event.join 1 ("A") ≠ Pytrivia.Event.forceEnd →
          announcedG.current_question_index
            ≤ (Pytrivia.step (Pytrivia.Event.join 1 ("A"))
                announcedG).current_question_index)
       ∧ (announcedG.current_question_index
            < (Pytrivia.step (Pytrivia.Event.join 1 ("A"))
                announcedG).current_question_index →
          announcedG.is_active = true)
       ∧ ((Pytrivia.step (Pytrivia.Event.join 1 ("A")) announcedG).is_active = true →
          (Pytrivia.step (Pytrivia.Event.join 1 ("A"))
              announcedG).current_question_index
            < (Pytrivia.step (Pytrivia.Event.join 1 ("A"))
                announcedG).questions.length)
       ∧ (∀ now : Rat, announcedG.is_active = true →
          announcedG.current_question_index + 1 = announcedG.questions.length →
          Pytrivia.step (Pytrivia.Event.timerFire now) announcedG
            = Pytrivia.end_game
                { announcedG with
                    current_question_index := announcedG.current_question_index + 1 })
       ∧ (announcedG.is_active = true →
          (Pytrivia.step Pytrivia.Event.forceEnd announcedG).current_question_index
            = 0)) :=
  ⟨Pytrivia.Reachable.announced announcedG rfl rfl rfl,
   index_monotone_amended announcedG
     (Pytrivia.Reachable.announced announcedG rfl rfl rfl)
     (Pytrivia.Event.join 1 ("A")) trivial⟩

/-- Counterexample to C5 as stated: a reachable, active session at question
index 1 whose index drops back to 0 when the admin force-ends the game —
`current_question_index` does decrease on the force-end transition. -/
theorem force_end_decreases_index_counterexample :
    Pytrivia.Reachable g5a
    ∧ g5a.is_active = true
    ∧ g5a.current_question_index = 1
    ∧ (Pytrivia.step Pytrivia.Event.forceEnd g5a).current_question_index = 0 := by
  refine ⟨?_, ?_, ?_, ?_⟩
  · unfold g5a
    exact Pytrivia.Reachable.next _ _
      (Pytrivia.Reachable.next _ _
        (Pytrivia.Reachable.next _ _
          (Pytrivia.Reachable.announced announcedG rfl rfl rfl) trivial)
        (by simp [Pytrivia.EventOK]))
      trivial
  · decide
  · decide
  · decide

/-- Claim C6 (violated by the code): the deadline-fire bodies carry no
(question index, presentation timestamp) token and consult only `is_active`.
`gStale` is a session already on question 1; executing the fire continuation
that was armed during question 0 (a stale fire) is not a no-op: it advances
the session to question 2, in both variants.  In the Pytrivia variant this
fire is reachable because the 30-second continuation task is anonymous and
is cancelled by neither `next_game` nor `show_question`. -/
theorem stale_timer_fire_advances :
    gStale.current_question_index = 1
    ∧ gStale.is_active = true
    ∧ (Pytrivia.show_next_question 100 gStale).current_question_index = 2
    ∧ (Quizapi.auto_advance_question 100 gStale).current_question_index = 2 := by
  refine ⟨by decide, by decide, by decide, by decide⟩

/-- `show_question` (quizapi) never changes the index, roster or questions. -/
theorem quizapi_show_question_frame (now : Rat) (g : QuizGame) :
    (Quizapi.show_question now g).current_question_index = g.current_question_index
    ∧ (Quizapi.show_question now g).roster = g.roster
    ∧ (Quizapi.show_question now g).questions = g.questions := by
  unfold Quizapi.show_question Quizapi.end_game
  split <;> exact ⟨rfl, rfl, rfl⟩

/-- After `show_question` the session has either just ended or carries the
fresh presentation timestamp. -/
theorem quizapi_fresh_or_ended (now : Rat) (g : QuizGame) :
    (Quizapi.show_question now g).is_active = false
    ∨ (Quizapi.show_question now g).question_start_time = some now := by
  unfold Quizapi.show_question Quizapi.end_game
  split
  · right; rfl
  · left; rfl

/-- The trailing advance check never moves the index backwards. -/
theorem quizapi_post_advance_ge (now : Rat) (g : QuizGame) :
    g.current_question_index ≤ (Quizapi.post_advance now g).current_question_index := by
  unfold Quizapi.post_advance
  split
  · rw [(quizapi_show_question_frame now _).1]
    exact Nat.le_succ _
  · exact le_refl _

/-- When every roster member has attempted, the trailing check advances. -/
theorem quizapi_post_advance_of_full (now : Rat) (g : QuizGame)
    (h : g.roster \ g.answered_players = ∅) :
    Quizapi.post_advance now g
      = Quizapi.show_question now
          { g with current_question_index := g.current_question_index + 1 } := by
  unfold Quizapi.post_advance
  rw [if_pos (Or.inl h)]

/-- The ended-or-fresh property survives the trailing advance check. -/
theorem quizapi_post_advance_fresh (now : Rat) (g : QuizGame)
    (h : g.is_active = false ∨ g.question_start_time = some now) :
    (Quizapi.post_advance now g).is_active = false
    ∨ (Quizapi.post_advance now g).question_start_time = some now := by
  unfold Quizapi.post_advance
  split
  · exact quizapi_fresh_or_ended now _
  · exact h

/-- Advancing then presenting, followed by the trailing check, never moves
the index below its pre-presentation value. -/
theorem quizapi_post_show_ge (now : Rat) (g : QuizGame) (n : Nat)
    (hn : g.current_question_index = n) :
    n ≤ (Quizapi.post_advance now
          (Quizapi.show_question now g)).current_question_index := by
  have h1 := (quizapi_show_question_frame now g).1
  have h2 := quizapi_post_advance_ge now (Quizapi.show_question now g)
  omega

/-- Claim C7 (amended): only the quizapi variant advances when the attempted
set reaches the full roster after an accepted answer: there the question
index strictly increases without waiting for the timer and the post state has
either a fresh presentation timestamp or the game over; the Pytrivia variant
never changes the index inside the answer handler and always waits for the
deadline timer. -/
theorem full_attempt_advance_amended :
    (∀ (now t0 : Rat) (g : QuizGame) (uid : Nat) (k : String) (q : Question)
        (v : String),
       g.is_active = true → uid ∈ g.roster → uid ∉ g.answered_players →
       uid ∉ g.correct_players →
       g.current_question = some q → g.question_start_time = some t0 →
       q.correct_answers.lookup (k ++ "_correct") = some v →
       insert uid g.answered_players = g.roster →
       (g.current_question_index
          < (Quizapi.handle_answer now g uid k).1.current_question_index
        ∧ ((Quizapi.handle_answer now g uid k).1.is_active = false
           ∨ (Quizapi.handle_answer now g uid k).1.question_start_time = some now)))
  ∧ (∀ (g : QuizGame) (uid : Nat) (k : String) (t : Rat),
       (Pytrivia.handle_answer g uid k t).1.current_question_index
         = g.current_question_index) := by
  constructor
  · intro now t0 g uid k q v ha hr hd hc hq ht hv hfull
    have hsd : g.roster \ insert uid g.answered_players = ∅ := by
      rw [hfull]
      exact Finset.sdiff_self _
    by_cases hvt : v = "true"
    · subst hvt
      simp only [Quizapi.handle_answer, ha, hr, hd, hc, hq, ht, hv]
      simp only [Bool.true_eq_false, if_false, reduceIte,
        not_true_eq_false, not_false_eq_true]
      by_cases hcc : (insert uid g.correct_players).card = g.roster.card
      · rw [if_pos hcc]
        refine ⟨?_, quizapi_post_advance_fresh now _ (quizapi_fresh_or_ended now _)⟩
        exact lt_of_lt_of_le (Nat.lt_succ_self _)
          (quizapi_post_show_ge now _ _ rfl)
      · rw [if_neg hcc]
        rw [quizapi_post_advance_of_full now _ hsd]
        constructor
        · rw [(quizapi_show_question_frame now _).1]
          exact Nat.lt_succ_self _
        · exact quizapi_fresh_or_ended now _
    · simp only [Quizapi.handle_answer, ha, hr, hd, hc, hq, ht, hv]
      simp only [Bool.true_eq_false, if_false, reduceIte,
        not_true_eq_false, not_false_eq_true, if_neg hvt]
      rw [quizapi_post_advance_of_full now _ hsd]
      constructor
      · rw [(quizapi_show_question_frame now _).1]
        exact Nat.lt_succ_self _
      · exact quizapi_fresh_or_ended now _
  · intro g uid k t
    exact (pytrivia_handle_frame g uid k t).2.2.1

/-- Witness for C7 (amended) at a concrete final attempt: player 1 answers
wrong at 10s while player 2 has already attempted, completing the roster. -/
theorem full_attempt_advance_amended_witness :
    (gOneLeft.is_active = true ∧ 1 ∈ gOneLeft.roster
     ∧ 1 ∉ gOneLeft.answered_players ∧ 1 ∉ gOneLeft.correct_players
     ∧ insert 1 gOneLeft.answered_players = gOneLeft.roster)
    ∧ (gOneLeft.current_question_index
         < (Quizapi.handle_answer 10 gOneLeft 1 ("b")).1.current_question_index
       ∧ ((Quizapi.handle_answer 10 gOneLeft 1 ("b")).1.is_active = false
          ∨ (Quizapi.handle_answer 10 gOneLeft 1 ("b")).1.question_start_time
              = some 10)) :=
  ⟨⟨by decide, by decide, by decide, by decide, by decide⟩,
   full_attempt_advance_amended.1 10 0 gOneLeft 1 ("b") q0 ("false")
     (by decide) (by decide) (by decide) (by decide) rfl rfl rfl (by decide)⟩

/-- Counterexample to C7 as stated: in the Pytrivia variant an accepted
answer that completes the roster's attempted set does not advance — the
question index, the current question and its presentation timestamp are all
unchanged, so the session keeps waiting for the timer. -/
theorem pytrivia_no_advance_on_full_attempt_counterexample :
    (Pytrivia.handle_answer gOneLeft 1 ("b") 10).1.answered_players = gOneLeft.roster
    ∧ (Pytrivia.handle_answer gOneLeft 1 ("b") 10).2 = AnswerResult.accepted false 0
    ∧ (Pytrivia.handle_answer gOneLeft 1 ("b") 10).1.current_question_index
        = gOneLeft.current_question_index
    ∧ (Pytrivia.handle_answer gOneLeft 1 ("b") 10).1.current_question
        = gOneLeft.current_question
    ∧ (Pytrivia.handle_answer gOneLeft 1 ("b") 10).1.question_start_time
        = gOneLeft.question_start_time :=
  ⟨by decide, by decide, by decide, by decide, by decide⟩

/-- Claim C8 (amended): `join_trivia` adds the participant with fresh stats
and signals a no-op when the identity is already present; the Pytrivia
variant accepts joins in every session state (announced, active, and ended —
it has no Ended-state rejection), while the quizapi variant rejects any join
while the game is active and accepts joins whenever it is not (which
includes ended sessions). -/
theorem join_acceptance_amended :
    (∀ (g : QuizGame) (uid : Nat) (name : String), uid ∈ g.roster →
        Pytrivia.join_trivia g uid name = (g, JoinResult.alreadyJoined))
  ∧ (∀ (g : QuizGame) (uid : Nat) (name : String), uid ∉ g.roster →
        ((Pytrivia.join_trivia g uid name).1.roster = insert uid g.roster
         ∧ (Pytrivia.join_trivia g uid name).1.stats uid = initPlayer name
         ∧ ((Pytrivia.join_trivia g uid name).2 = JoinResult.joinedActive
            ∨ (Pytrivia.join_trivia g uid name).2 = JoinResult.joinedWaiting)))
  ∧ (∀ (g : QuizGame) (uid : Nat) (name : String), g.is_active = true →
        Quizapi.join_trivia g uid name = (g, JoinResult.gameInProgress))
  ∧ (∀ (g : QuizGame) (uid : Nat) (name : String), g.is_active = false →
        uid ∈ g.roster →
        Quizapi.join_trivia g uid name = (g, JoinResult.alreadyJoined))
  ∧ (∀ (g : QuizGame) (uid : Nat) (name : String), g.is_active = false →
        uid ∉ g.roster →
        ((Quizapi.join_trivia g uid name).1.roster = insert uid g.roster
         ∧ (Quizapi.join_trivia g uid name).1.stats uid = initPlayer name
         ∧ (Quizapi.join_trivia g uid name).2 = JoinResult.joinedWaiting)) := by
  refine ⟨?_, ?_, ?_, ?_, ?_⟩
  · intro g uid name h
    simp [Pytrivia.join_trivia, h]
  · intro g uid name h
    refine ⟨?_, ?_, ?_⟩
    · simp [Pytrivia.join_trivia, h]
    · simp [Pytrivia.join_trivia, h]
    · by_cases ha : g.is_active
      · left
        simp [Pytrivia.join_trivia, h, ha]
      · right
        simp [Pytrivia.join_trivia, h, ha]
  · intro g uid name ha
    simp [Quizapi.join_trivia, ha]
  · intro g uid name ha h
    simp [Quizapi.join_trivia, ha, h]
  · intro g uid name ha h
    simp [Quizapi.join_trivia, ha, h]

/-- Witness for C8 (amended): a fresh join on an announced session and a
rejected join on an active quizapi session. -/
theorem join_acceptance_amended_witness :
    (announcedG.is_active = false ∧ 1 ∉ announcedG.roster
     ∧ gActive.is_active = true)
    ∧ ((Pytrivia.join_trivia announcedG 1 ("A")).1.roster
          = insert 1 announcedG.roster
       ∧ (Pytrivia.join_trivia announcedG 1 ("A")).1.stats 1 = initPlayer ("A")
       ∧ ((Pytrivia.join_trivia announcedG 1 ("A")).2 = JoinResult.joinedActive
          ∨ (Pytrivia.join_trivia announcedG 1 ("A")).2 = JoinResult.joinedWaiting))
    ∧ Quizapi.join_trivia gActive 3 ("C") = (gActive, JoinResult.gameInProgress) :=
  ⟨⟨rfl, by decide, rfl⟩,
   join_acceptance_amended.2.1 announcedG 1 ("A") (by decide),
   join_acceptance_amended.2.2.1 gActive 3 ("C") rfl⟩

/-- Counterexample to C8 as stated: the quizapi variant rejects a late join.
Identity 3 is not in the roster of the active session `gActive`, yet its
`Join` is refused as a no-op with the in-progress notice instead of being
accepted. -/
theorem quizapi_join_rejected_while_active_counterexample :
    gActive.is_active = true
    ∧ 3 ∉ gActive.roster
    ∧ Quizapi.join_trivia gActive 3 ("C") = (gActive, JoinResult.gameInProgress) :=
  ⟨rfl, by decide, rfl⟩

/-- `entryLE` is reflexive. -/
theorem entryLE_refl (x : Option RegEntry) : entryLE x x := by
  cases x
  · trivial
  · exact ⟨le_refl _, le_refl _⟩

/-- `regLE` is reflexive. -/
theorem regLE_refl (r : Nat → Option RegEntry) : regLE r r :=
  fun _ => entryLE_refl _

/-- `entryLE` is transitive. -/
theorem entryLE_trans {a b c : Option RegEntry}
    (h1 : entryLE a b) (h2 : entryLE b c) : entryLE a c := by
  cases a
  · trivial
  · cases b
    · exact h1.elim
    · cases c
      · exact h2.elim
      · exact ⟨le_trans h1.1 h2.1, le_trans h1.2 h2.2⟩

/-- `regLE` is transitive. -/
theorem regLE_trans {r1 r2 r3 : Nat → Option RegEntry}
    (h1 : regLE r1 r2) (h2 : regLE r2 r3) : regLE r1 r3 :=
  fun uid => entryLE_trans (h1 uid) (h2 uid)

/-- End-of-game crediting only grows the registry. -/
theorem creditRankings_regLE (g : QuizGame) : regLE g.rankings (creditRankings g) := by
  intro uid
  unfold creditRankings
  split
  · cases hru : g.rankings uid
    · trivial
    · simp only [hru, Option.getD_some]
      exact ⟨Nat.le_add_right _ _, Nat.le_succ _⟩
  · exact entryLE_refl _

/-- `show_question` (Pytrivia) only grows the registry. -/
theorem pytrivia_show_question_regLE (now : Rat) (g : QuizGame)
    (r : Nat → Option RegEntry) (hr : g.rankings = r) :
    regLE r (Pytrivia.show_question now g).rankings := by
  subst hr
  unfold Pytrivia.show_question Pytrivia.end_game
  split
  · exact regLE_refl _
  · split
    · exact regLE_refl _
    · exact creditRankings_regLE g

/-- `show_question` (quizapi) only grows the registry. -/
theorem quizapi_show_question_regLE (now : Rat) (g : QuizGame)
    (r : Nat → Option RegEntry) (hr : g.rankings = r) :
    regLE r (Quizapi.show_question now g).rankings := by
  subst hr
  unfold Quizapi.show_question Quizapi.end_game
  split
  · exact regLE_refl _
  · exact creditRankings_regLE g

/-- The trailing advance check only grows the registry. -/
theorem quizapi_post_advance_regLE (now : Rat) (g : QuizGame)
    (r : Nat → Option RegEntry) (hr : g.rankings = r) :
    regLE r (Quizapi.post_advance now g).rankings := by
  subst hr
  unfold Quizapi.post_advance
  split
  · exact quizapi_show_question_regLE now _ _ rfl
  · exact regLE_refl _

/-- Advance-then-check only grows the registry. -/
theorem quizapi_post_show_regLE (now : Rat) (g : QuizGame)
    (r : Nat → Option RegEntry) (hr : g.rankings = r) :
    regLE r (Quizapi.post_advance now (Quizapi.show_question now g)).rankings :=
  regLE_trans (quizapi_show_question_regLE now g r hr)
    (quizapi_post_advance_regLE now _ _ rfl)

/-- Every Pytrivia transition only grows the registry. -/
theorem pytrivia_step_regLE (e : Pytrivia.Event) (g : QuizGame) :
    regLE g.rankings (Pytrivia.step e g).rankings := by
  cases e with
  | join uid name =>
      dsimp only [Pytrivia.step]
      rw [(pytrivia_join_frame g uid name).2.2.2]
      exact regLE_refl _
  | startGame qs now =>
      dsimp only [Pytrivia.step]
      split_ifs
      · exact regLE_refl _
      · exact regLE_refl _
      · exact pytrivia_show_question_regLE now _ _ rfl
  | answer uid key t =>
      dsimp only [Pytrivia.step]
      rw [(pytrivia_handle_frame g uid key t).2.2.2.2]
      exact regLE_refl _
  | timerFire now =>
      dsimp only [Pytrivia.step]
      unfold Pytrivia.show_next_question
      split
      · exact pytrivia_show_question_regLE now _ _ rfl
      · exact regLE_refl _
  | nextGame now =>
      dsimp only [Pytrivia.step]
      split
      · exact pytrivia_show_question_regLE now _ _ rfl
      · exact regLE_refl _
  | forceEnd =>
      dsimp only [Pytrivia.step]
      unfold Pytrivia.force_end
      split
      · exact creditRankings_regLE g
      · exact regLE_refl _

/-- The quizapi answer handler only grows the registry. -/
theorem quizapi_handle_regLE (now : Rat) (g : QuizGame) (uid : Nat) (k : String) :
    regLE g.rankings ((Quizapi.handle_answer now g uid k).1.rankings) := by
  unfold Quizapi.handle_answer
  split_ifs
  any_goals exact regLE_refl _
  dsimp only
  repeat' split
  all_goals first
    | exact regLE_refl _
    | exact quizapi_post_advance_regLE now _ _ rfl
    | exact quizapi_post_show_regLE now _ _ rfl

/-- Claim C9 (amended): registry entries are mutated only by end-of-game
aggregation — which, for every roster member, adds the session points and one
game, creating the entry if absent, and leaves every other identity's entry
untouched — and by the administrative `reset_scores` command, which clears
the whole registry; every session transition and answer call only ever grows
an entry, never shrinks or removes one. -/
theorem registry_monotone_amended :
    (∀ (e : Pytrivia.Event) (g : QuizGame),
        regLE g.rankings (Pytrivia.step e g).rankings)
  ∧ (∀ (now : Rat) (g : QuizGame) (uid : Nat) (k : String),
        regLE g.rankings ((Quizapi.handle_answer now g uid k).1.rankings))
  ∧ (∀ (g : QuizGame) (uid : Nat), uid ∉ g.roster →
        (Pytrivia.end_game g).rankings uid = g.rankings uid)
  ∧ (∀ (g : QuizGame) (uid : Nat), uid ∈ g.roster →
        (Pytrivia.end_game g).rankings uid
          = some { username := ((g.rankings uid).getD
                      { username := (g.stats uid).name, total_points := 0,
                        games_played := 0 }).username,
                   total_points := ((g.rankings uid).getD
                      { username := (g.stats uid).name, total_points := 0,
                        games_played := 0 }).total_points + (g.stats uid).points,
                   games_played := ((g.rankings uid).getD
                      { username := (g.stats uid).name, total_points := 0,
                        games_played := 0 }).games_played + 1 })
  ∧ (∀ (g : QuizGame) (uid : Nat), (Pytrivia.reset_scores g).rankings uid = none) := by
  refine ⟨pytrivia_step_regLE, quizapi_handle_regLE, ?_, ?_, ?_⟩
  · intro g uid h
    unfold Pytrivia.end_game creditRankings
    dsimp only
    rw [if_neg h]
  · intro g uid h
    unfold Pytrivia.end_game creditRankings
    dsimp only
    rw [if_pos h]
  · intro g uid
    rfl

/-- Witness for C9 at the running two-player game: ending it creates the
entry for roster member 1 and leaves non-member 3 untouched. -/
theorem registry_monotone_amended_witness :
    (1 ∈ gActive.roster ∧ 3 ∉ gActive.roster)
    ∧ (Pytrivia.end_game gActive).rankings 3 = gActive.rankings 3
    ∧ (Pytrivia.end_game gActive).rankings 1
        = some { username := ((gActive.rankings 1).getD
                    { username := (gActive.stats 1).name, total_points := 0,
                      games_played := 0 }).username,
                 total_points := ((gActive.rankings 1).getD
                    { username := (gActive.stats 1).name, total_points := 0,
                      games_played := 0 }).total_points + (gActive.stats 1).points,
                 games_played := ((gActive.rankings 1).getD
                    { username := (gActive.stats 1).name, total_points := 0,
                      games_played := 0 }).games_played + 1 } :=
  ⟨⟨by decide, by decide⟩,
   registry_monotone_amended.2.2.1 gActive 3 (by decide),
   registry_monotone_amended.2.2.2.1 gActive 1 (by decide)⟩

/-- Counterexample to C9 as stated: the `reset_scores` command erases an
existing registry entry, so an operation of the system other than end-of-game
aggregation does clear `total_points`/`games_played`. -/
theorem reset_scores_clears_registry_counterexample :
    gReg.rankings 1 = some { username := "A", total_points := 5, games_played := 2 }
    ∧ (Pytrivia.reset_scores gReg).rankings 1 = none :=
  ⟨rfl, rfl⟩

/-- Claim C10 (violated by the code): the answer handler is not total.  With
an option key outside the current question's keys the unguarded lookup
`correct_answers[key + "_correct"]` raises (`handlerError`), and it does so
only after the caller has already been added to the attempted set; during the
pre-question delay (`current_question` still unset while the game is active)
any answer raises as well.  Both variants are affected. -/
theorem handle_answer_not_total :
    (Pytrivia.handle_answer gActive 1 ("z") 3).2 = AnswerResult.handlerError
    ∧ (Pytrivia.handle_answer gActive 1 ("z") 3).1.answered_players
        = insert 1 gActive.answered_players
    ∧ (Quizapi.handle_answer 3 gActive 1 ("z")).2 = AnswerResult.handlerError
    ∧ gNoQuestion.is_active = true
    ∧ (Pytrivia.handle_answer gNoQuestion 1 ("a") 3).2 = AnswerResult.handlerError
    ∧ (Quizapi.handle_answer 3 gNoQuestion 1 ("a")).2 = AnswerResult.handlerError :=
  ⟨by decide, by decide, by decide, by decide, by decide, by decide⟩
